import Mathlib

/-!
Shallow embedding of the friend/group relationship core of the
`mid-where-ah` Flask application (`src/app.py`), together with theorems
checking the natural-language specification against it.

The Firestore document store is modelled as explicit state:
* the `users` collection as an association list from document id to profile,
* each user's `friends` subcollection as a flat association list keyed by
  the pair (owner id, friend id),
* the `friend_requests` collection as an association list from document id
  to request record,
* the `user_search` collection (the SearchIndexEntry projection) as an
  association list from user id to index entry.

Server timestamps (`firestore.SERVER_TIMESTAMP`) are modelled as a `Nat`
argument `now` passed to each mutating operation.  A Firestore batch commit
is all-or-nothing; operations that commit a batch take an extra
`commitFail : Option String` argument: `none` means the commit succeeds and
all writes of the batch are applied in one step, `some e` means the commit
raises an exception with text `e`, no write is applied, and the surrounding
`except` handler of the route produces the route's error response.
Likewise `searchUsers` takes a `storeFail` argument modelling a store call
raising inside the route's outer `try`.
-/

namespace MidWhereAh

/-- A document of the `users` collection.  Fields are `Option` because the
route code reads them with `dict.get` and per-site defaults; the document id
is the association-list key (the code backfills `userId` from `doc.id`). -/
structure UserProfile where
  name : Option String
  email : Option String
  username : Option String
  photoURL : Option String
  deriving Repr, DecidableEq

/-- A friend record, stored under `users/{owner}/friends/{other}`; written
only by `accept_friend_request`, which writes every field. -/
structure Friendship where
  userId : String
  name : String
  email : String
  username : String
  photoURL : String
  friendsSince : Nat
  lastInteraction : Nat
  status : String
  deriving Repr, DecidableEq

/-- A document of the `friend_requests` collection, as written by
`send_friend_request`. -/
structure FriendRequest where
  id : String
  fromUserId : String
  fromUserName : String
  fromUserEmail : String
  fromUserPhotoURL : String
  toUserId : String
  toUserName : String
  toUserEmail : String
  status : String
  createdAt : Nat
  updatedAt : Nat
  deriving Repr, DecidableEq

/-- A document of the `user_search` collection (SearchIndexEntry), as
written by `update_user_search_index`. -/
structure SearchIndexEntry where
  userId : String
  name : String
  email : String
  username : String
  photoURL : String
  searchTerms : List String
  deriving Repr, DecidableEq

/-- The verified identity stored in `session['user']` by `login_required`
(uid, email, name, photoURL). -/
structure SessionUser where
  uid : String
  email : String
  name : String
  photoURL : String
  deriving Repr, DecidableEq

/-- A JSON error response: HTTP status, the `error` field, and the optional
`details` field some handlers add. -/
structure ApiError where
  status : Nat
  error : String
  details : Option String := none
  deriving Repr, DecidableEq

/-- One element of the `users` array returned by `search_users`. -/
structure SearchResult where
  userId : String
  name : String
  email : String
  username : Option String
  photoURL : Option String
  isFriend : Bool
  requestPending : Bool
  deriving Repr, DecidableEq

/-- The Firestore state touched by the friend feature. -/
structure Store where
  users : List (String × UserProfile)
  friends : List ((String × String) × Friendship)
  friendRequests : List (String × FriendRequest)
  userSearch : List (String × SearchIndexEntry)
  deriving Repr, DecidableEq

/-- Point `get` of a document by id: first entry with the key. -/
def lookupA {α : Type} (l : List (String × α)) (k : String) : Option α :=
  (l.find? (fun p => p.fst == k)).map (fun p => p.snd)

/-- Document paths are unique keys, so a `set` replaces any entry at the
same id. -/
def setA {α : Type} (l : List (String × α)) (k : String) (v : α) :
    List (String × α) :=
  (k, v) :: l.filter (fun p => !(p.fst == k))

/-- Firestore `update` of stored fields of the document at `k` (no-op if absent,
matching an update inside a committed batch on an existing doc). -/
def updateA {α : Type} (l : List (String × α)) (k : String) (f : α → α) :
    List (String × α) :=
  l.map (fun p => if p.fst == k then (p.fst, f p.snd) else p)

/-- Firestore `get` of `users/{owner}/friends/{fr}`. -/
def lookupFriend (l : List ((String × String) × Friendship))
    (owner fr : String) : Option Friendship :=
  (l.find? (fun p => p.fst.fst == owner && p.fst.snd == fr)).map
    (fun p => p.snd)

/-- Firestore `set` of `users/{owner}/friends/{fr}`. -/
def setFriend (l : List ((String × String) × Friendship))
    (owner fr : String) (v : Friendship) :
    List ((String × String) × Friendship) :=
  ((owner, fr), v) ::
    l.filter (fun p => !(p.fst.fst == owner && p.fst.snd == fr))

/-- Firestore `delete` of `users/{owner}/friends/{fr}`; deleting an absent document
is a successful no-op in Firestore. -/
def deleteFriend (l : List ((String × String) × Friendship))
    (owner fr : String) : List ((String × String) × Friendship) :=
  l.filter (fun p => !(p.fst.fst == owner && p.fst.snd == fr))

/-- Python `hay.find(sub) >= 0` on lists of characters: `sub` occurs as a
contiguous fragment of `hay` (an empty `sub` always occurs). -/
def containsSub (sub : List Char) : List Char → Bool
  | [] => sub.isEmpty
  | c :: t => sub.isPrefixOf (c :: t) || containsSub sub t

/-- Python `hay.find(sub) >= 0` on strings. -/
def strContains (hay sub : String) : Bool :=
  containsSub sub.data hay.data

/-- Python `str.lower()`, written by structural recursion over the
character list so that it evaluates inside the kernel. -/
def toLowerStr (s : String) : String :=
  ⟨s.data.map Char.toLower⟩

/-- Python `str.upper()`, likewise charwise. -/
def toUpperStr (s : String) : String :=
  ⟨s.data.map Char.toUpper⟩

/-- Python `str.strip()`: drop whitespace from both ends. -/
def trimStr (s : String) : String :=
  ⟨((s.data.dropWhile Char.isWhitespace).reverse.dropWhile
      Char.isWhitespace).reverse⟩

/-- Python `email.split('@')[0]`: the characters before the first `@`
(the whole string when there is no `@`). -/
def localPart (email : String) : String :=
  ⟨email.data.takeWhile (fun c => !(c == '@'))⟩

/-- The `'status' == 'pending'` filtered query of `friend_requests` for the
ordered pair, as issued by `send_friend_request` and by the
`requestPending` check of `search_users`. -/
def pendingRequests (s : Store) (fromId toId : String) :
    List (String × FriendRequest) :=
  s.friendRequests.filter (fun p =>
    p.snd.fromUserId == fromId && p.snd.toUserId == toId &&
      p.snd.status == "pending")

/-- Route `search_users` (src/app.py lines 206-317).  `rawQuery` is the `q` query
parameter; the verified session user is `su`; `storeFail` models a store
call raising inside the outer `try` (lines 315-317).  The route is
read-only, so it returns no state. -/
def searchUsers (rawQuery : String) (su : SessionUser)
    (storeFail : Option String) (s : Store) :
    Except ApiError (List SearchResult) :=
  let query := trimStr (toLowerStr rawQuery)
  if query.data.length < 2 then .ok []
  else
    match storeFail with
    | some e => .error ⟨500, "Search operation failed: " ++ e, none⟩
    | none =>
      let allUsers := s.users.take 50
      let searchResults := allUsers.filter (fun p =>
        strContains (toLowerStr (p.snd.name.getD "")) query ||
        strContains (toLowerStr (p.snd.email.getD "")) query ||
        strContains (toLowerStr (p.snd.username.getD "")) query)
      .ok (searchResults.filterMap (fun p =>
        if p.fst == su.uid then none
        else some
          { userId := p.fst
            name := p.snd.name.getD "Unknown User"
            email := p.snd.email.getD "No email"
            username := p.snd.username
            photoURL := p.snd.photoURL
            isFriend := (lookupFriend s.friends su.uid p.fst).isSome
            requestPending := !(pendingRequests s su.uid p.fst).isEmpty }))

/-- The friend-request document `send_friend_request` creates
(src/app.py lines 376-391): pending status, denormalized sender snapshot
from the session user and recipient snapshot from the target profile,
server timestamps. -/
def sendReq (su : SessionUser) (toUserId : String) (toUser : UserProfile)
    (newId : String) (now : Nat) : FriendRequest :=
  { id := newId
    fromUserId := su.uid
    fromUserName := su.name
    fromUserEmail := su.email
    fromUserPhotoURL := su.photoURL
    toUserId := toUserId
    toUserName := toUser.name.getD ""
    toUserEmail := toUser.email.getD ""
    status := "pending"
    createdAt := now
    updatedAt := now }

/-- The already-friends guard of `send_friend_request` (src/app.py lines
346-363): reads both sides of the Friendship pair and declares the users
friends only when both documents exist, the sender-side record's `email`
equals the *sender's own* email (`friendship1_data.get('email') ==
current_user.get('email')`, line 359) and the recipient-side record's
`userId` is the sender (line 360). -/
def alreadyFriendsCheck (su : SessionUser) (toUserId : String) (s : Store) :
    Bool :=
  match lookupFriend s.friends su.uid toUserId,
      lookupFriend s.friends toUserId su.uid with
  | some f1, some f2 => f1.email == su.email && f2.userId == su.uid
  | _, _ => false

/-- Route `send_friend_request` (src/app.py lines 319-397).  `toUserId?` is
`data.get('toUserId')` (`none` for a missing key; the empty string is falsy
in Python, hence also rejected); `newId` is the store-assigned id of the
fresh `friend_requests` document; `now` stands for
`firestore.SERVER_TIMESTAMP`. -/
def sendFriendRequest (su : SessionUser) (toUserId? : Option String)
    (newId : String) (now : Nat) (s : Store) :
    Except ApiError String × Store :=
  match toUserId? with
  | none => (.error ⟨400, "Missing toUserId", none⟩, s)
  | some toUserId =>
    if toUserId == "" then (.error ⟨400, "Missing toUserId", none⟩, s)
    else
      let currentUserId := su.uid
      if !(pendingRequests s currentUserId toUserId).isEmpty then
        (.error ⟨400, "Friend request already sent", none⟩, s)
      else
        if alreadyFriendsCheck su toUserId s then
          (.error ⟨400, "Already friends", none⟩, s)
        else
          match lookupA s.users toUserId with
          | none => (.error ⟨404, "User not found", none⟩, s)
          | some toUser =>
            (.ok "Friend request sent successfully",
              { s with friendRequests := setA s.friendRequests newId (sendReq su toUserId toUser newId now) })

/-- The friend record `accept_friend_request` writes under the recipient
keyed by the sender (src/app.py lines 496-505): the sender's denormalized
snapshot from the request document, username derived from the sender's
email local part. -/
def acceptRec1 (reqData : FriendRequest) (now : Nat) : Friendship :=
  { userId := reqData.fromUserId
    name := reqData.fromUserName
    email := reqData.fromUserEmail
    username := localPart reqData.fromUserEmail
    photoURL := reqData.fromUserPhotoURL
    friendsSince := now
    lastInteraction := now
    status := "active" }

/-- The friend record `accept_friend_request` writes under the sender keyed
by the recipient (src/app.py lines 507-516), read from the recipient's own
profile document; `dict.get` defaults apply when the document or a field is
absent. -/
def acceptRec2 (currentUserId : String)
    (currentUserData : Option UserProfile) (now : Nat) : Friendship :=
  { userId := currentUserId
    name := (currentUserData.bind (fun p => p.name)).getD ""
    email := (currentUserData.bind (fun p => p.email)).getD ""
    username := (currentUserData.bind (fun p => p.username)).getD
      (localPart ((currentUserData.bind (fun p => p.email)).getD ""))
    photoURL := (currentUserData.bind (fun p => p.photoURL)).getD ""
    friendsSince := now
    lastInteraction := now
    status := "active" }

/-- Route `accept_friend_request` (src/app.py lines 459-542).  The route checks
only that the request document exists and that `toUserId` is the acting
user — there is no check of `status`.  On the happy path it commits one
batch holding both friend-record writes and the status update; `commitFail`
models the batch commit raising, in which case the handler at lines 532-542
returns a 500 with `details := str(e)` and no write is applied. -/
def acceptFriendRequest (requestId : String) (su : SessionUser) (now : Nat)
    (commitFail : Option String) (s : Store) :
    Except ApiError String × Store :=
  let currentUserId := su.uid
  match lookupA s.friendRequests requestId with
  | none => (.error ⟨404, "Friend request not found", none⟩, s)
  | some reqData =>
    if !(reqData.toUserId == currentUserId) then
      (.error ⟨403, "Unauthorized", none⟩, s)
    else
      let rec1 := acceptRec1 reqData now
      let rec2 := acceptRec2 currentUserId (lookupA s.users currentUserId)
        now
      match commitFail with
      | some e =>
        (.error ⟨500, "Failed to accept friend request", some e⟩, s)
      | none =>
        (.ok "Friend request accepted",
          { s with
            friends :=
              setFriend (setFriend s.friends currentUserId reqData.fromUserId
                rec1) reqData.fromUserId currentUserId rec2
            friendRequests :=
              updateA s.friendRequests requestId (fun r =>
                { r with status := "accepted", updatedAt := now }) })

/-- Route `decline_friend_request` (src/app.py lines 544-586): same existence and
authorization checks as accept, then a single-document status update. -/
def declineFriendRequest (requestId : String) (su : SessionUser)
    (now : Nat) (s : Store) : Except ApiError String × Store :=
  match lookupA s.friendRequests requestId with
  | none => (.error ⟨404, "Friend request not found", none⟩, s)
  | some reqData =>
    if !(reqData.toUserId == su.uid) then
      (.error ⟨403, "Unauthorized", none⟩, s)
    else
      (.ok "Friend request declined",
        { s with
          friendRequests :=
            updateA s.friendRequests requestId (fun r =>
              { r with status := "declined", updatedAt := now }) })

/-- Route `remove_friend` (src/app.py lines 616-643): one batch holding the two
deletes; no existence check anywhere (Firestore `delete` succeeds on absent
documents).  `commitFail` models the batch commit raising, handled at
lines 641-643. -/
def removeFriend (friendId : String) (su : SessionUser)
    (commitFail : Option String) (s : Store) :
    Except ApiError String × Store :=
  match commitFail with
  | some _ => (.error ⟨500, "Failed to remove friend", none⟩, s)
  | none =>
    (.ok "Friend removed successfully",
      { s with
        friends :=
          deleteFriend (deleteFriend s.friends su.uid friendId)
            friendId su.uid })

/-- Modelled from the spec: the spec's §4.1 search contract says the
substring match runs over the SearchIndexEntry projection (the
`user_search` collection), not the `users` collection, restricted to a
bounded candidate window.  This definition follows those words so it can be
compared with `searchUsers`, which is translated from the source. -/
def searchUsersSpec (rawQuery : String) (su : SessionUser) (s : Store) :
    Except ApiError (List SearchResult) :=
  let query := trimStr (toLowerStr rawQuery)
  if query.data.length < 2 then .ok []
  else
    let window := s.userSearch.take 50
    let hits := window.filter (fun p =>
      strContains (toLowerStr p.snd.name) query ||
      strContains (toLowerStr p.snd.email) query ||
      strContains (toLowerStr p.snd.username) query)
    .ok (hits.filterMap (fun p =>
      if p.fst == su.uid then none
      else some
        { userId := p.snd.userId
          name := p.snd.name
          email := p.snd.email
          username := some p.snd.username
          photoURL := some p.snd.photoURL
          isFriend := (lookupFriend s.friends su.uid p.snd.userId).isSome
          requestPending :=
            !(pendingRequests s su.uid p.snd.userId).isEmpty }))

/-- A member entry of a group's `members` map. -/
structure MemberRecord where
  name : String
  email : String
  photoURL : String
  joinedAt : Nat
  role : String
  status : String
  deriving Repr, DecidableEq

/-- A document of the `groups` collection, per the spec's data model. -/
structure Group where
  groupId : String
  name : String
  inviteCode : String
  members : List (String × MemberRecord)
  memberCount : Nat
  updatedAt : Nat
  lastActivity : Nat
  deriving Repr, DecidableEq

/-- The verified identity claim set passed to the join flow. -/
structure Identity where
  name : String
  email : String
  photoURL : String
  deriving Repr, DecidableEq

/-- Group-side store state: the `groups` collection (in query order — the
spec notes invite-code uniqueness is not store-enforced and the first query
result is used) and the system chat messages, as pairs
(groupId, message text). -/
structure GroupStore where
  groups : List Group
  messages : List (String × String)
  deriving Repr, DecidableEq

/-- Successful join payload: `{success, alreadyMember, groupId, groupName}`. -/
structure JoinSuccess where
  alreadyMember : Bool
  groupId : String
  groupName : String
  deriving Repr, DecidableEq

/-- Join failure kinds, per the spec's §4.2. -/
inductive JoinError where
  | invalidCodeFormat
  | invalidCode
  deriving Repr, DecidableEq

/-- First group whose `inviteCode` equals the normalized code. -/
def findGroup (code : String) (l : List Group) : Option Group :=
  l.find? (fun g => g.inviteCode == code)

/-- Replace the first group whose `inviteCode` equals `code` by `f` of it. -/
def updateFirstGroup (code : String) (f : Group → Group) :
    List Group → List Group
  | [] => []
  | g :: t =>
    if g.inviteCode == code then f g :: t
    else g :: updateFirstGroup code f t

/-- The `status = active` membership test on a group's `members` map. -/
def isActiveMember (userId : String) (g : Group) : Bool :=
  match lookupA g.members userId with
  | some m => m.status == "active"
  | none => false

/-- The member-admission mutation of the spec's §4.2 step 4 applied to one
group: add a MemberRecord under the user's id, increment `memberCount` by
exactly 1, refresh `updatedAt`/`lastActivity`. -/
def addMember (userId : String) (ident : Identity) (now : Nat)
    (g : Group) : Group :=
  { g with
    members := setA g.members userId
      { name := ident.name
        email := ident.email
        photoURL := ident.photoURL
        joinedAt := now
        role := "member"
        status := "active" }
    memberCount := g.memberCount + 1
    updatedAt := now
    lastActivity := now }

/-- Modelled from the spec: the actual group-join logic is missing from
`src/` — the `join_group_api` route (src/app.py lines 783-795) is a TODO
stub — so `joinGroupByCode` follows the spec's §4.2 word for word:
normalize the code (uppercase, trimmed), `InvalidCodeFormat` if length ≠ 6,
look up the first group with that invite code, `InvalidCode` if none,
idempotent success with `alreadyMember := true` and no mutation when a
`status=active` entry for the user is present, otherwise atomically add the
member, increment the counter by exactly 1, refresh timestamps and append
the system join message — all in one batch. -/
def joinGroupByCode (userId : String) (ident : Identity) (code : String)
    (now : Nat) (gs : GroupStore) :
    Except JoinError JoinSuccess × GroupStore :=
  let norm := toUpperStr (trimStr code)
  if norm.data.length ≠ 6 then (.error .invalidCodeFormat, gs)
  else
    match findGroup norm gs.groups with
    | none => (.error .invalidCode, gs)
    | some g =>
      if isActiveMember userId g then
        (.ok ⟨true, g.groupId, g.name⟩, gs)
      else
        (.ok ⟨false, g.groupId, g.name⟩,
          { groups := updateFirstGroup norm (addMember userId ident now)
              gs.groups
            messages :=
              gs.messages ++ [(g.groupId, ident.name ++ " joined the group")] })

/-! Concrete states used by witnesses and counterexamples. -/

/-- Profile document of user `alice-id`. -/
def pAlice : UserProfile := ⟨some "Alice", some "alice@x.com", none, some "pa"⟩

/-- Profile document of user `bob-id`. -/
def pBob : UserProfile := ⟨some "Bob", some "bob@x.com", none, some "pb"⟩

/-- Alice's verified session identity. -/
def suAlice : SessionUser := ⟨"alice-id", "alice@x.com", "Alice", "pa"⟩

/-- Bob's verified session identity. -/
def suBob : SessionUser := ⟨"bob-id", "bob@x.com", "Bob", "pb"⟩

/-- A pending friend request `R1` from Alice to Bob. -/
def reqAliceBob : FriendRequest :=
  ⟨"R1", "alice-id", "Alice", "alice@x.com", "pa", "bob-id", "Bob",
    "bob@x.com", "pending", 1, 1⟩

/-- Store holding Alice's and Bob's profiles and the pending request `R1`. -/
def storePending : Store :=
  ⟨[("alice-id", pAlice), ("bob-id", pBob)], [], [("R1", reqAliceBob)], []⟩

/-- State `storePending` after Bob accepts `R1`: the genuine, cross-referencing
Friendship pair as the code itself writes it. -/
def storeFriends : Store :=
  (acceptFriendRequest "R1" suBob 10 none storePending).snd

/-- State `storePending` after Bob declines `R1`. -/
def storeDeclined : Store :=
  (declineFriendRequest "R1" suBob 5 storePending).snd

/-- A third user's session identity, used as search requester. -/
def suMe : SessionUser := ⟨"me", "me@x.com", "Me", ""⟩

/-- A directory whose `users` collection holds one matching user while the
`user_search` projection is empty. -/
def storeBobOnly : Store :=
  ⟨[("bob", ⟨some "Bobby", some "bob@x.com", none, none⟩)], [], [], []⟩

/-- A group with invite code `AB12CD` and three members already counted. -/
def lunchGroup : Group := ⟨"G1", "Lunch", "AB12CD", [], 3, 0, 0⟩

/-- Group store holding only `lunchGroup`. -/
def groupStore0 : GroupStore := ⟨[lunchGroup], []⟩

/-- Identity claims of the joining user `U1`. -/
def identUma : Identity := ⟨"Uma", "u1@x.com", "pu"⟩

/-- A store whose only friend request is pending from `me` to `you`,
with `you`'s profile present. -/
def storeMeYouPending : Store :=
  ⟨[("you", ⟨some "You", some "you@x.com", none, none⟩)], [],
    [("R9", ⟨"R9", "me", "Me", "me@x.com", "", "you", "You", "you@x.com",
      "pending", 2, 2⟩)], []⟩

/-! Association-list lemmas shared by the claim theorems. -/

/-- Filtering by `p` does not change `find? q` when everything `q` accepts
is kept by `p`. -/
theorem find?_filter_of_imp {α : Type} (p q : α → Bool) (l : List α)
    (h : ∀ x, q x = true → p x = true) :
    (l.filter p).find? q = l.find? q := by
  induction l with
  | nil => rfl
  | cons a t ih =>
    cases hp : p a with
    | true =>
      cases hq : q a with
      | true => simp [List.filter_cons, hp, List.find?_cons, hq]
      | false => simp [List.filter_cons, hp, List.find?_cons, hq, ih]
    | false =>
      have hq : q a = false := by
        cases hqq : q a with
        | false => rfl
        | true => simp [h a hqq] at hp
      simp [List.filter_cons, hp, List.find?_cons, hq, ih]

/-- Lemma: `find? q` fails on a filtered list when `p` drops everything `q`
accepts. -/
theorem find?_filter_none {α : Type} (p q : α → Bool) (l : List α)
    (h : ∀ x, q x = true → p x = false) :
    (l.filter p).find? q = none := by
  induction l with
  | nil => rfl
  | cons a t ih =>
    cases hp : p a with
    | true =>
      have hq : q a = false := by
        cases hqq : q a with
        | false => rfl
        | true => simp [h a hqq] at hp
      simp [List.filter_cons, hp, List.find?_cons, hq, ih]
    | false => simp [List.filter_cons, hp, ih]

/-- A pair key distinct from `(a, b)` never satisfies the `(a, b)`
key predicate. -/
theorem pair_key_pred_false (a b c d : String) (h : ¬(a = c ∧ b = d))
    (x : (String × String) × Friendship)
    (hx : (x.fst.fst == c && x.fst.snd == d) = true) :
    (x.fst.fst == a && x.fst.snd == b) = false := by
  rw [Bool.and_eq_true] at hx
  have hc : x.fst.fst = c := by simpa using hx.1
  have hd : x.fst.snd = d := by simpa using hx.2
  rcases Decidable.em (x.fst.fst = a) with h3 | h3
  · rcases Decidable.em (x.fst.snd = b) with h4 | h4
    · exact absurd ⟨h3.symm.trans hc, h4.symm.trans hd⟩ h
    · simp [h3, h4]
  · simp [h3]

/-- Reading `lookupFriend` after `setFriend`: the written record at its own key,
the previous contents elsewhere. -/
theorem lookupFriend_setFriend (l : List ((String × String) × Friendship))
    (a b c d : String) (v : Friendship) :
    lookupFriend (setFriend l a b v) c d =
      if a = c ∧ b = d then some v else lookupFriend l c d := by
  rcases Decidable.em (a = c ∧ b = d) with h | h
  · obtain ⟨h1, h2⟩ := h
    subst h1; subst h2
    simp [lookupFriend, setFriend, List.find?_cons]
  · have hhead : ((a == c) && (b == d)) = false := by
      rcases Decidable.em (a = c) with h1 | h1
      · have h2 : ¬ b = d := fun hh => h ⟨h1, hh⟩
        simp [h2]
      · simp [h1]
    unfold lookupFriend setFriend
    rw [if_neg h, List.find?_cons]
    simp only [hhead]
    rw [find?_filter_of_imp]
    intro x hx
    simp [pair_key_pred_false a b c d h x hx]

/-- Reading `lookupFriend` after `deleteFriend`: gone at the deleted key, the
previous contents elsewhere. -/
theorem lookupFriend_deleteFriend (l : List ((String × String) × Friendship))
    (a b c d : String) :
    lookupFriend (deleteFriend l a b) c d =
      if a = c ∧ b = d then none else lookupFriend l c d := by
  rcases Decidable.em (a = c ∧ b = d) with h | h
  · obtain ⟨h1, h2⟩ := h
    subst h1; subst h2
    rw [if_pos ⟨rfl, rfl⟩]
    unfold lookupFriend deleteFriend
    rw [find?_filter_none]
    · rfl
    · intro x hx
      simp only [Bool.not_eq_true] at hx ⊢
      simp [hx]
  · unfold lookupFriend deleteFriend
    rw [if_neg h, find?_filter_of_imp]
    intro x hx
    simp [pair_key_pred_false a b c d h x hx]

/-- Deleting the same friend document twice equals deleting it once. -/
theorem deleteFriend_idem (l : List ((String × String) × Friendship))
    (a b : String) :
    deleteFriend (deleteFriend l a b) a b = deleteFriend l a b := by
  unfold deleteFriend
  rw [List.filter_filter]
  simp only [Bool.and_self]

/-- Deletions of friend documents commute. -/
theorem deleteFriend_comm (l : List ((String × String) × Friendship))
    (a b c d : String) :
    deleteFriend (deleteFriend l a b) c d =
      deleteFriend (deleteFriend l c d) a b := by
  unfold deleteFriend
  exact List.filter_comm _ _ l

/-- Reading `lookupA` after `updateA` at the updated key. -/
theorem lookupA_updateA {α : Type} (l : List (String × α)) (k : String)
    (f : α → α) :
    lookupA (updateA l k f) k = (lookupA l k).map f := by
  induction l with
  | nil => rfl
  | cons p t ih =>
    show lookupA ((if p.fst == k then (p.fst, f p.snd) else p) ::
        updateA t k f) k = (lookupA (p :: t) k).map f
    cases hk : (p.fst == k) with
    | true =>
      rw [if_pos rfl]
      unfold lookupA
      rw [List.find?_cons, List.find?_cons]
      simp [hk]
    | false =>
      rw [if_neg Bool.false_ne_true]
      unfold lookupA
      rw [List.find?_cons, List.find?_cons]
      simp only [hk]
      simpa [lookupA] using ih

/-- Reading `lookupA` after `setA`: the written document at its own key, the
previous contents elsewhere. -/
theorem lookupA_setA {α : Type} (l : List (String × α)) (k k' : String)
    (v : α) :
    lookupA (setA l k v) k' = if k = k' then some v else lookupA l k' := by
  rcases Decidable.em (k = k') with h | h
  · subst h
    simp [lookupA, setA, List.find?_cons]
  · have hhead : (k == k') = false := by simp [h]
    unfold lookupA setA
    rw [if_neg h, List.find?_cons]
    simp only [hhead]
    rw [find?_filter_of_imp]
    intro x hx
    have hx' : x.fst = k' := by simpa using hx
    have hh : ¬ x.fst = k := by
      rw [hx']
      intro hh2
      exact h hh2.symm
    simp [hh]

/-- A user who was just admitted by `addMember` is an active member. -/
theorem isActiveMember_addMember (u : String) (ident : Identity) (now : Nat)
    (g : Group) : isActiveMember u (addMember u ident now g) = true := by
  simp [isActiveMember, addMember, lookupA_setA]

/-- Updating the first group with a given invite code, by a function that
preserves invite codes, is visible at `findGroup`. -/
theorem findGroup_updateFirstGroup (code : String) (f : Group → Group)
    (hf : ∀ g, (f g).inviteCode = g.inviteCode) :
    ∀ (l : List Group) (g : Group), findGroup code l = some g →
      findGroup code (updateFirstGroup code f l) = some (f g) := by
  intro l
  induction l with
  | nil => intro g h; simp [findGroup] at h
  | cons a t ih =>
    intro g h
    cases hc : (a.inviteCode == code) with
    | true =>
      have hg : g = a := by
        simp [findGroup, List.find?_cons, hc] at h
        exact h.symm
      subst hg
      simp [updateFirstGroup, hc, findGroup, List.find?_cons, hf]
    | false =>
      have h' : findGroup code t = some g := by
        simpa [findGroup, List.find?_cons, hc] using h
      simp only [findGroup] at ih
      simp [updateFirstGroup, hc, findGroup, List.find?_cons, ih g h']

/-! Claim theorems. -/

/-- C9: for every requester, store condition and directory contents, a
search whose query trims (after lowercasing) to fewer than 2 characters
returns the empty user list.  The route returns before any store access,
so it has no side effect and is unaffected even by a failing store. -/
theorem search_short_query_returns_empty (rawQuery : String)
    (su : SessionUser) (storeFail : Option String) (s : Store)
    (hq : (trimStr (toLowerStr rawQuery)).data.length < 2) :
    searchUsers rawQuery su storeFail s = .ok [] := by
  unfold searchUsers
  rw [if_pos hq]

/-- C9 witness: the one-character query "A" on a non-empty directory,
instantiating `search_short_query_returns_empty`. -/
theorem search_short_query_returns_empty_witness :
    (trimStr (toLowerStr "A")).data.length < 2 ∧
      searchUsers "A" suMe none storeBobOnly = .ok [] :=
  ⟨by decide,
    search_short_query_returns_empty "A" suMe none storeBobOnly (by decide)⟩

/-- C6: `removeFriend` deletes both sides of the Friendship pair in one
atomic batch: either the commit succeeds and afterwards no Friendship
record exists under the caller keyed by the friend nor under the friend
keyed by the caller, or the commit fails and the store is completely
unchanged — no state with exactly one side deleted is ever left behind. -/
theorem remove_friend_atomic_pair (su : SessionUser) (fid : String)
    (commitFail : Option String) (s : Store) :
    ((removeFriend fid su commitFail s).fst =
        .ok "Friend removed successfully" ∧
      lookupFriend ((removeFriend fid su commitFail s).snd).friends
        su.uid fid = none ∧
      lookupFriend ((removeFriend fid su commitFail s).snd).friends
        fid su.uid = none) ∨
    ((removeFriend fid su commitFail s).fst =
        .error ⟨500, "Failed to remove friend", none⟩ ∧
      (removeFriend fid su commitFail s).snd = s) := by
  cases commitFail with
  | some e => exact Or.inr ⟨rfl, rfl⟩
  | none =>
    refine Or.inl ⟨rfl, ?_, ?_⟩
    · show lookupFriend (deleteFriend (deleteFriend s.friends su.uid fid)
        fid su.uid) su.uid fid = none
      rw [lookupFriend_deleteFriend]
      rcases Decidable.em (fid = su.uid ∧ su.uid = fid) with h | h
      · rw [if_pos h]
      · rw [if_neg h, lookupFriend_deleteFriend, if_pos ⟨rfl, rfl⟩]
    · show lookupFriend (deleteFriend (deleteFriend s.friends su.uid fid)
        fid su.uid) fid su.uid = none
      rw [lookupFriend_deleteFriend, if_pos ⟨rfl, rfl⟩]

/-- C10: with a successful commit, `removeFriend` returns the success
message on every store — deleting absent Friendship documents raises no
error, so there is no NotFound-style failure — afterwards both sides are
absent, and an immediate second call returns the same success and leaves
the store exactly as the first call left it: the operation is
idempotent. -/
theorem remove_friend_idempotent_success (su : SessionUser) (fid : String)
    (s : Store) :
    (removeFriend fid su none s).fst = .ok "Friend removed successfully" ∧
    lookupFriend ((removeFriend fid su none s).snd).friends su.uid fid =
      none ∧
    lookupFriend ((removeFriend fid su none s).snd).friends fid su.uid =
      none ∧
    removeFriend fid su none ((removeFriend fid su none s).snd) =
      (.ok "Friend removed successfully",
        (removeFriend fid su none s).snd) := by
  refine ⟨rfl, ?_, ?_, ?_⟩
  · show lookupFriend (deleteFriend (deleteFriend s.friends su.uid fid)
      fid su.uid) su.uid fid = none
    rw [lookupFriend_deleteFriend]
    rcases Decidable.em (fid = su.uid ∧ su.uid = fid) with h | h
    · rw [if_pos h]
    · rw [if_neg h, lookupFriend_deleteFriend, if_pos ⟨rfl, rfl⟩]
  · show lookupFriend (deleteFriend (deleteFriend s.friends su.uid fid)
      fid su.uid) fid su.uid = none
    rw [lookupFriend_deleteFriend, if_pos ⟨rfl, rfl⟩]
  · have key : deleteFriend (deleteFriend (deleteFriend (deleteFriend
        s.friends su.uid fid) fid su.uid) su.uid fid) fid su.uid =
        deleteFriend (deleteFriend s.friends su.uid fid) fid su.uid := by
      rw [deleteFriend_comm (deleteFriend s.friends su.uid fid) fid su.uid
        su.uid fid]
      rw [deleteFriend_idem, deleteFriend_idem]
    show (Except.ok "Friend removed successfully", ({ s with friends := deleteFriend (deleteFriend (deleteFriend (deleteFriend s.friends su.uid fid) fid su.uid) su.uid fid) fid su.uid } : Store)) = (Except.ok "Friend removed successfully", ({ s with friends := deleteFriend (deleteFriend s.friends su.uid fid) fid su.uid } : Store))
    rw [key]

/-- C1: accepting a pending friend request as its recipient is
all-or-nothing: either the batch commits and afterwards the Friendship
record under the recipient keyed by the sender exists (active, pointing at
the sender), the Friendship record under the sender keyed by the recipient
exists (active, pointing at the recipient), and the request's status is
`accepted`; or the batch commit fails and the operation returns the
structured error with the store completely unchanged — no partial
combination of the three writes can result. -/
theorem accept_pending_request_atomic (s : Store) (reqId : String)
    (su : SessionUser) (now : Nat) (commitFail : Option String)
    (r : FriendRequest)
    (hlook : lookupA s.friendRequests reqId = some r)
    (hpend : r.status = "pending")
    (hto : r.toUserId = su.uid) :
    (∃ s', acceptFriendRequest reqId su now commitFail s =
        (.ok "Friend request accepted", s') ∧
      (∃ f1, lookupFriend s'.friends su.uid r.fromUserId = some f1 ∧
        f1.userId = r.fromUserId ∧ f1.status = "active") ∧
      (∃ f2, lookupFriend s'.friends r.fromUserId su.uid = some f2 ∧
        f2.userId = su.uid ∧ f2.status = "active") ∧
      (∃ r', lookupA s'.friendRequests reqId = some r' ∧
        r'.status = "accepted")) ∨
    (∃ e, commitFail = some e ∧
      acceptFriendRequest reqId su now commitFail s =
        (.error ⟨500, "Failed to accept friend request", some e⟩, s)) := by
  cases commitFail with
  | some e =>
    refine Or.inr ⟨e, rfl, ?_⟩
    simp [acceptFriendRequest, hlook, hto]
  | none =>
    refine Or.inl ⟨{ s with
        friends := setFriend (setFriend s.friends su.uid r.fromUserId
          (acceptRec1 r now)) r.fromUserId su.uid
          (acceptRec2 su.uid (lookupA s.users su.uid) now),
        friendRequests := updateA s.friendRequests reqId (fun rr =>
          { rr with status := "accepted", updatedAt := now }) },
      ?_, ?_, ?_, ?_⟩
    · simp [acceptFriendRequest, hlook, hto]
    · show ∃ f1, lookupFriend (setFriend (setFriend s.friends su.uid
        r.fromUserId (acceptRec1 r now)) r.fromUserId su.uid
        (acceptRec2 su.uid (lookupA s.users su.uid) now)) su.uid
        r.fromUserId = some f1 ∧ f1.userId = r.fromUserId ∧
        f1.status = "active"
      rw [lookupFriend_setFriend]
      rcases Decidable.em (r.fromUserId = su.uid) with h | h
      · rw [if_pos ⟨h, h.symm⟩]
        exact ⟨acceptRec2 su.uid (lookupA s.users su.uid) now, rfl,
          h.symm, rfl⟩
      · rw [if_neg (fun hh => h hh.1), lookupFriend_setFriend,
          if_pos ⟨rfl, rfl⟩]
        exact ⟨acceptRec1 r now, rfl, rfl, rfl⟩
    · show ∃ f2, lookupFriend (setFriend (setFriend s.friends su.uid
        r.fromUserId (acceptRec1 r now)) r.fromUserId su.uid
        (acceptRec2 su.uid (lookupA s.users su.uid) now)) r.fromUserId
        su.uid = some f2 ∧ f2.userId = su.uid ∧ f2.status = "active"
      rw [lookupFriend_setFriend, if_pos ⟨rfl, rfl⟩]
      exact ⟨acceptRec2 su.uid (lookupA s.users su.uid) now, rfl, rfl, rfl⟩
    · show ∃ r', lookupA (updateA s.friendRequests reqId (fun rr =>
        { rr with status := "accepted", updatedAt := now })) reqId =
        some r' ∧ r'.status = "accepted"
      rw [lookupA_updateA, hlook]
      exact ⟨_, rfl, rfl⟩

/-- C1 witness: `accept_pending_request_atomic` applied to the pending
request `R1` from Alice to Bob, accepted by Bob with a succeeding
commit. -/
theorem accept_pending_request_atomic_witness :
    (∃ s', acceptFriendRequest "R1" suBob 10 none storePending =
        (.ok "Friend request accepted", s') ∧
      (∃ f1, lookupFriend s'.friends suBob.uid reqAliceBob.fromUserId =
        some f1 ∧ f1.userId = reqAliceBob.fromUserId ∧
        f1.status = "active") ∧
      (∃ f2, lookupFriend s'.friends reqAliceBob.fromUserId suBob.uid =
        some f2 ∧ f2.userId = suBob.uid ∧ f2.status = "active") ∧
      (∃ r', lookupA s'.friendRequests "R1" = some r' ∧
        r'.status = "accepted")) ∨
    (∃ e, (none : Option String) = some e ∧
      acceptFriendRequest "R1" suBob 10 none storePending =
        (.error ⟨500, "Failed to accept friend request", some e⟩,
          storePending)) :=
  accept_pending_request_atomic storePending "R1" suBob 10 none reqAliceBob
    rfl rfl rfl

/-- C2 counterexample: Bob declines the pending request `R1`, so the store
holds `R1` with status `declined` (a terminal state); yet the subsequent
accept attempt by Bob does not fail with any AlreadyResolved-style error —
it returns the success payload and overwrites the status to `accepted`,
mutating the supposedly immutable request. -/
theorem accept_after_decline_succeeds :
    (declineFriendRequest "R1" suBob 5 storePending).fst =
      .ok "Friend request declined" ∧
    (lookupA storeDeclined.friendRequests "R1").map FriendRequest.status =
      some "declined" ∧
    (acceptFriendRequest "R1" suBob 6 none storeDeclined).fst =
      .ok "Friend request accepted" ∧
    (lookupA ((acceptFriendRequest "R1" suBob 6 none
      storeDeclined).snd).friendRequests "R1").map FriendRequest.status =
      some "accepted" :=
  ⟨rfl, rfl, rfl, rfl⟩

/-- C2 amended: `accept_friend_request` checks only that the request
document exists and that the acting user is its recipient; it never reads
`status`.  So for a request in any status — pending, accepted or declined —
an accept by the recipient with a succeeding commit returns success and
sets the status to `accepted`: no AlreadyResolved error exists and the
terminal states accepted/declined are not immutable. -/
theorem accept_ignores_status (s : Store) (reqId : String)
    (su : SessionUser) (now : Nat) (r : FriendRequest)
    (hlook : lookupA s.friendRequests reqId = some r)
    (hto : r.toUserId = su.uid) :
    (acceptFriendRequest reqId su now none s).fst =
      .ok "Friend request accepted" ∧
    ∃ r', lookupA ((acceptFriendRequest reqId su now
      none s).snd).friendRequests reqId = some r' ∧
      r'.status = "accepted" := by
  constructor
  · simp [acceptFriendRequest, hlook, hto]
  · have hsnd : ((acceptFriendRequest reqId su now none
        s).snd).friendRequests = updateA s.friendRequests reqId (fun rr =>
        { rr with status := "accepted", updatedAt := now }) := by
      simp [acceptFriendRequest, hlook, hto]
    rw [hsnd, lookupA_updateA, hlook]
    exact ⟨_, rfl, rfl⟩

/-- C2 amended witness: `accept_ignores_status` applied to the declined
request `R1`, accepted by Bob. -/
theorem accept_ignores_status_witness :
    (acceptFriendRequest "R1" suBob 6 none storeDeclined).fst =
      .ok "Friend request accepted" ∧
    ∃ r', lookupA ((acceptFriendRequest "R1" suBob 6 none
      storeDeclined).snd).friendRequests "R1" = some r' ∧
      r'.status = "accepted" :=
  accept_ignores_status storeDeclined "R1" suBob 6
    ⟨"R1", "alice-id", "Alice", "alice@x.com", "pa", "bob-id", "Bob",
      "bob@x.com", "declined", 1, 5⟩ rfl rfl

/-- C5: if a pending friend request for the ordered pair (sender,
recipient) is already stored, `send_friend_request` fails with the
DuplicateRequest error (400, "Friend request already sent") and leaves the
store unchanged; and whenever a send succeeds, an immediately repeated
identical send fails with that same error — the second of two back-to-back
sends for the same ordered pair is always rejected. -/
theorem send_request_duplicate_guard (su : SessionUser)
    (toId newId1 newId2 : String) (now1 now2 : Nat) (s : Store)
    (hne : (toId == "") = false) :
    ((pendingRequests s su.uid toId).isEmpty = false →
      sendFriendRequest su (some toId) newId1 now1 s =
        (.error ⟨400, "Friend request already sent", none⟩, s)) ∧
    ((sendFriendRequest su (some toId) newId1 now1 s).fst =
        .ok "Friend request sent successfully" →
      (sendFriendRequest su (some toId) newId2 now2
        ((sendFriendRequest su (some toId) newId1 now1 s).snd)).fst =
        .error ⟨400, "Friend request already sent", none⟩) := by
  constructor
  · intro hdup
    simp [sendFriendRequest, hne, hdup]
  · intro hok
    cases hdup : (pendingRequests s su.uid toId).isEmpty with
    | false => simp [sendFriendRequest, hne, hdup] at hok
    | true =>
      cases hif : alreadyFriendsCheck su toId s with
      | true => simp [sendFriendRequest, hne, hdup, hif] at hok
      | false =>
        cases hu : lookupA s.users toId with
        | none => simp [sendFriendRequest, hne, hdup, hif, hu] at hok
        | some toUser =>
          have hsnd : (sendFriendRequest su (some toId) newId1 now1 s).snd
              = { s with friendRequests := setA s.friendRequests newId1 (sendReq su toId toUser newId1 now1) } := by
            simp [sendFriendRequest, hne, hdup, hif, hu]
          rw [hsnd]
          simp [sendFriendRequest, hne, pendingRequests, setA, sendReq,
            List.filter_cons]

/-- C5 witness: `send_request_duplicate_guard` applied twice — first to a
store that already holds a pending request from `me` to `you` (first
conjunct), then to the empty-request store where the first send succeeds
and the repeated send is rejected (second conjunct). -/
theorem send_request_duplicate_guard_witness :
    sendFriendRequest suMe (some "you") "R10" 3 storeMeYouPending =
      (.error ⟨400, "Friend request already sent", none⟩,
        storeMeYouPending) ∧
    (sendFriendRequest suMe (some "you") "R11" 4
      ((sendFriendRequest suMe (some "you") "R10" 3
        { storeMeYouPending with friendRequests := [] }).snd)).fst =
      .error ⟨400, "Friend request already sent", none⟩ :=
  ⟨(send_request_duplicate_guard suMe "you" "R10" "R11" 3 4
      storeMeYouPending (by decide)).1 (by decide),
    (send_request_duplicate_guard suMe "you" "R10" "R11" 3 4
      { storeMeYouPending with friendRequests := [] } (by decide)).2 rfl⟩

/-- C3: the already-friends guard of `send_friend_request` compares the
sender-side friend record's `email` — which stores the *other* party's
email — with the sender's own email (src/app.py line 359), so a genuine
Friendship pair, exactly as written by the code's own
`accept_friend_request`, is never detected when the two users' emails
differ.  On the store where Bob has accepted Alice's request (both
Friendship records present and cross-referencing correctly), Alice's
`send_friend_request` to Bob does not fail with AlreadyFriends: it
succeeds and stores a fresh pending request between two users who are
already friends. -/
theorem send_misses_genuine_friendship :
    lookupFriend storeFriends.friends "alice-id" "bob-id" =
      some ⟨"bob-id", "Bob", "bob@x.com", "bob", "pb", 10, 10, "active"⟩ ∧
    lookupFriend storeFriends.friends "bob-id" "alice-id" =
      some ⟨"alice-id", "Alice", "alice@x.com", "alice", "pa", 10, 10,
        "active"⟩ ∧
    alreadyFriendsCheck suAlice "bob-id" storeFriends = false ∧
    (sendFriendRequest suAlice (some "bob-id") "R2" 20 storeFriends).fst =
      .ok "Friend request sent successfully" ∧
    (pendingRequests ((sendFriendRequest suAlice (some "bob-id") "R2" 20
      storeFriends).snd) "alice-id" "bob-id").length = 1 :=
  ⟨rfl, rfl, rfl, rfl, rfl⟩

/-- C4 (join flow modelled from the spec, the src route being a TODO
stub): joining a group by invite code is idempotent — when the normalized
code is well-formed and resolves to a group of which the user is not yet an
active member, the first call succeeds, admits the user and increments
`memberCount` by exactly 1, and an immediately repeated call succeeds with
`alreadyMember = true` while mutating nothing: the final state is exactly
the state after the first call. -/
theorem joinGroupByCode_idempotent (u : String) (ident : Identity)
    (code : String) (n1 n2 : Nat) (gs : GroupStore) (g : Group)
    (hlen : (toUpperStr (trimStr code)).data.length = 6)
    (hfind : findGroup (toUpperStr (trimStr code)) gs.groups = some g)
    (hmem : isActiveMember u g = false) :
    ∃ gs1,
      joinGroupByCode u ident code n1 gs =
        (.ok ⟨false, g.groupId, g.name⟩, gs1) ∧
      findGroup (toUpperStr (trimStr code)) gs1.groups =
        some (addMember u ident n1 g) ∧
      (addMember u ident n1 g).memberCount = g.memberCount + 1 ∧
      joinGroupByCode u ident code n2 gs1 =
        (.ok ⟨true, g.groupId, g.name⟩, gs1) := by
  refine ⟨{ groups := updateFirstGroup (toUpperStr (trimStr code)) (addMember u ident n1) gs.groups, messages := gs.messages ++ [(g.groupId, ident.name ++ " joined the group")] }, ?_, ?_, rfl, ?_⟩
  · simp [joinGroupByCode, hlen, hfind, hmem]
  · exact findGroup_updateFirstGroup (toUpperStr (trimStr code))
      (addMember u ident n1) (fun g0 => rfl) gs.groups g hfind
  · have hfind2 := findGroup_updateFirstGroup (toUpperStr (trimStr code))
      (addMember u ident n1) (fun g0 => rfl) gs.groups g hfind
    simp [joinGroupByCode, hlen, hfind2, isActiveMember_addMember]
    exact ⟨rfl, rfl⟩

/-- C4 witness: `joinGroupByCode_idempotent` applied to user `U1` joining
the group with invite code `AB12CD` (entered as "ab12cd ") twice. -/
theorem joinGroupByCode_idempotent_witness :
    ∃ gs1,
      joinGroupByCode "U1" identUma "ab12cd " 7 groupStore0 =
        (.ok ⟨false, lunchGroup.groupId, lunchGroup.name⟩, gs1) ∧
      findGroup (toUpperStr (trimStr "ab12cd ")) gs1.groups =
        some (addMember "U1" identUma 7 lunchGroup) ∧
      (addMember "U1" identUma 7 lunchGroup).memberCount =
        lunchGroup.memberCount + 1 ∧
      joinGroupByCode "U1" identUma "ab12cd " 9 gs1 =
        (.ok ⟨true, lunchGroup.groupId, lunchGroup.name⟩, gs1) :=
  joinGroupByCode_idempotent "U1" identUma "ab12cd " 7 9 groupStore0
    lunchGroup (by decide) (by decide) (by decide)

/-- C7 counterexample: with a failing store call whose exception text is
"RAW-STORE-ERROR", the search route's 500 response embeds that raw text in
its `error` message, and the accept route's 500 response returns it
verbatim in its `details` field — the raw store error string does surface
to the caller. -/
theorem raw_store_error_surfaced :
    searchUsers "bo" suMe (some "RAW-STORE-ERROR") storeBobOnly =
      .error ⟨500, "Search operation failed: " ++ "RAW-STORE-ERROR",
        none⟩ ∧
    (acceptFriendRequest "R1" suBob 6 (some "RAW-STORE-ERROR")
      storePending).fst =
      .error ⟨500, "Failed to accept friend request",
        some "RAW-STORE-ERROR"⟩ :=
  ⟨rfl, rfl⟩

/-- C7 amended: store-call failures are caught and mapped to structured
500 JSON errors with stable kinds and messages, but the raw store error
string is embedded in the response: for every exception text `e`,
`search_users` appends `str(e)` to its error message (src/app.py line 317)
and `accept_friend_request` returns `str(e)` verbatim in its `details`
field (line 541). -/
theorem store_failure_error_responses (rawQuery : String)
    (su : SessionUser) (e : String) (s : Store) (reqId : String)
    (now : Nat) (r : FriendRequest)
    (hq : ¬ (trimStr (toLowerStr rawQuery)).data.length < 2)
    (hlook : lookupA s.friendRequests reqId = some r)
    (hto : r.toUserId = su.uid) :
    searchUsers rawQuery su (some e) s =
      .error ⟨500, "Search operation failed: " ++ e, none⟩ ∧
    (acceptFriendRequest reqId su now (some e) s).fst =
      .error ⟨500, "Failed to accept friend request", some e⟩ := by
  constructor
  · unfold searchUsers
    rw [if_neg hq]
  · simp [acceptFriendRequest, hlook, hto]

/-- C7 amended witness: `store_failure_error_responses` with exception
text "boom", query "bo" and the pending request `R1` accepted by Bob. -/
theorem store_failure_error_responses_witness :
    searchUsers "bo" suBob (some "boom") storePending =
      .error ⟨500, "Search operation failed: " ++ "boom", none⟩ ∧
    (acceptFriendRequest "R1" suBob 6 (some "boom") storePending).fst =
      .error ⟨500, "Failed to accept friend request", some "boom"⟩ :=
  store_failure_error_responses "bo" suBob "boom" storePending "R1" 6
    reqAliceBob (by decide) rfl rfl

/-- C8 counterexample: on a store whose `user_search` projection is empty
while the `users` collection holds a matching profile, the search returns
that profile — so the substring match is evaluated against the User
collection, not against the SearchIndexEntry projection, which a
projection-based search (here spelled out from the spec's words as
`searchUsersSpec`) would have left empty. -/
theorem search_uses_users_not_search_index :
    storeBobOnly.userSearch = [] ∧
    searchUsers "bo" suMe none storeBobOnly =
      .ok [⟨"bob", "Bobby", "bob@x.com", none, none, false, false⟩] ∧
    searchUsersSpec "bo" suMe storeBobOnly = .ok [] :=
  ⟨rfl, rfl, rfl⟩

/-- C8 amended: the search match is case-insensitive substring over
name/email/username and bounded, but it runs over the first 50 documents
of the `users` collection (`db.collection('users').limit(50)`,
src/app.py line 227), not over the `user_search` projection: the result
depends only on the first 50 `users` entries and on the `friends` and
`friend_requests` collections, and is entirely independent of the
`user_search` contents. -/
theorem search_depends_only_on_user_window (rawQuery : String)
    (su : SessionUser) (s t : Store)
    (hu : s.users.take 50 = t.users.take 50)
    (hf : s.friends = t.friends)
    (hr : s.friendRequests = t.friendRequests) :
    searchUsers rawQuery su none s = searchUsers rawQuery su none t := by
  cases s with
  | mk us fs rq ix =>
    cases t with
    | mk ut ft rt it =>
      dsimp only at hu hf hr
      subst hf
      subst hr
      simp only [searchUsers, pendingRequests, lookupFriend]
      rw [hu]

/-- C8 amended witness: `search_depends_only_on_user_window` applied to
`storeBobOnly` and the same store with 51 extra users appended and a
divergent `user_search` projection added. -/
theorem search_depends_only_on_user_window_witness :
    searchUsers "bo" suMe none storeBobOnly =
      searchUsers "bo" suMe none
        { storeBobOnly with
          userSearch := [("zed", ⟨"zed", "Zed", "zed@x.com", "zed", "",
            []⟩)] } :=
  search_depends_only_on_user_window "bo" suMe storeBobOnly
    { storeBobOnly with
      userSearch := [("zed", ⟨"zed", "Zed", "zed@x.com", "zed", "", []⟩)] }
    rfl rfl rfl

end MidWhereAh
